import Mathlib

/-!
Verification development for the hand-gesture-driven interaction engine of the
repository (particle-visualization view and gesture-drawing view).

Numbers are embedded as exact rationals (`ℚ`). The two library square-root
style calls of the source (`Math.sqrt`, `Math.hypot`) are irrational-valued
black boxes, so every definition that uses one is parametrized by an oracle
function; theorems constrain the oracle at the inputs they touch with the
hypotheses `0 ≤ d` and `d ^ 2 = dx ^ 2 + dy ^ 2`, which characterize the exact
real square root. A second, separate model (`JsNum`) adds the IEEE-754 special
values NaN and the infinities in order to settle the claims that are about the
unguarded division `dx / dist` in the repulsion branch.
-/

/-- One MediaPipe hand landmark: normalized coordinates as delivered by the
detector (each component in `[0,1]` for an on-screen hand). -/
structure Landmark where
  x : ℚ
  y : ℚ
  z : ℚ
deriving DecidableEq

/-- The 21-point keypoint set describing one detected hand in one frame
(index 0 = wrist, 4 = thumb tip, 8 = index tip, 9 = middle knuckle,
12 = middle tip). -/
abbrev KeypointSet := Fin 21 → Landmark

/-- Discrete hand state of the particle view (`detectHandState` returns the
strings `'none' | 'closed' | 'open'`). -/
inductive HandState where
  | closed
  | open_
  | none
deriving DecidableEq

/-- Classifier of the particle view, source `detectHandState` (part_000 lines
120-138): distance wrist→middle-tip versus 1.2 × distance wrist→middle-knuckle,
in normalized coordinates. `hyp` is the `Math.hypot` oracle; `Option.none`
models the `!landmarks || landmarks.length === 0` early return. -/
def detectHandState (hyp : ℚ → ℚ → ℚ) (landmarks : Option KeypointSet) : HandState :=
  match landmarks with
  | Option.none => HandState.none
  | Option.some lms =>
    let wrist := lms 0
    let middleTip := lms 12
    let middleMcp := lms 9
    let distTipToWrist := hyp (middleTip.x - wrist.x) (middleTip.y - wrist.y)
    let distMcpToWrist := hyp (middleMcp.x - wrist.x) (middleMcp.y - wrist.y)
    if distTipToWrist < distMcpToWrist * 1.2 then HandState.closed else HandState.open_

/-- Pixel-space distance between index tip (landmark 8) and thumb tip
(landmark 4), both mapped with the X axis mirrored (`(1 - nx) * width`),
source part_001 lines 218-225. `hyp` is the `Math.hypot` oracle. -/
def pinchDistance (hyp : ℚ → ℚ → ℚ) (lms : KeypointSet) (w h : ℚ) : ℚ :=
  let x := (1 - (lms 8).x) * w
  let y := (lms 8).y * h
  let thumbX := (1 - (lms 4).x) * w
  let thumbY := (lms 4).y * h
  hyp (x - thumbX) (y - thumbY)

/-- Pinch classification of the drawing view, source part_001 line 226:
`dist < 60`. -/
def isPinchNow (hyp : ℚ → ℚ → ℚ) (lms : KeypointSet) (w h : ℚ) : Bool :=
  decide (pinchDistance hyp lms w h < 60)

/-- C3: the pinch classifier maps the two tips into mirrored pixel space and
asserts Pinching exactly when the pixel distance between them is strictly
below 60. `d` is pinned to be the true Euclidean distance between the mapped
points (`0 ≤ d`, `d ^ 2 = dx ^ 2 + dy ^ 2`), and the hypot oracle is assumed
exact at this one input. Consequently coinciding tips (d = 0) give Pinching
and d = 60 gives NotPinching. -/
theorem pinchThresholdIff (hyp : ℚ → ℚ → ℚ) (lms : KeypointSet) (w h d : ℚ)
    (hd0 : 0 ≤ d)
    (hd : d ^ 2 = ((1 - (lms 8).x) * w - (1 - (lms 4).x) * w) ^ 2
        + ((lms 8).y * h - (lms 4).y * h) ^ 2)
    (hhyp : hyp ((1 - (lms 8).x) * w - (1 - (lms 4).x) * w)
        ((lms 8).y * h - (lms 4).y * h) = d) :
    (isPinchNow hyp lms w h = true ↔ d < 60) ∧
    (isPinchNow hyp lms w h = false ↔ ¬ d < 60) := by
  unfold isPinchNow pinchDistance
  rw [hhyp]
  constructor
  · exact decide_eq_true_iff
  · exact decide_eq_false_iff_not

/-- Keypoint set whose index tip maps to the pixel point (320, 120) and whose
thumb tip maps to (356, 168) on a 640×480 surface: pixel distance exactly 60. -/
def lmsSixty : KeypointSet := fun i =>
  if i = 8 then ⟨1/2, 1/4, 0⟩
  else if i = 4 then ⟨71/160, 7/20, 0⟩
  else ⟨0, 0, 0⟩

/-- Hypot oracle that is exact at the single input of `lmsSixty`. -/
def hypSixty : ℚ → ℚ → ℚ := fun _ _ => 60

theorem lmsSixty_eight : lmsSixty 8 = ⟨1/2, 1/4, 0⟩ := rfl

theorem lmsSixty_four : lmsSixty 4 = ⟨71/160, 7/20, 0⟩ := rfl

theorem pinchThresholdIffWitness : isPinchNow hypSixty lmsSixty 640 480 = false :=
  (pinchThresholdIff hypSixty lmsSixty 640 480 60 (by norm_num)
    (by norm_num [lmsSixty_eight, lmsSixty_four]) rfl).2.mpr (by norm_num)

/-- C4: for any keypoint set, the open/closed classifier returns Closed exactly
when the wrist→middle-tip Euclidean distance is below 1.2 × the
wrist→middle-knuckle distance, and Open otherwise. `dTip`/`dMcp` are pinned to
be the genuine Euclidean distances in normalized coordinates and the hypot
oracle is assumed exact at the two inputs it is given. -/
theorem handStateClosedIff (hyp : ℚ → ℚ → ℚ) (lms : KeypointSet) (dTip dMcp : ℚ)
    (hdTip0 : 0 ≤ dTip)
    (hdTip : dTip ^ 2 = ((lms 12).x - (lms 0).x) ^ 2 + ((lms 12).y - (lms 0).y) ^ 2)
    (hdMcp0 : 0 ≤ dMcp)
    (hdMcp : dMcp ^ 2 = ((lms 9).x - (lms 0).x) ^ 2 + ((lms 9).y - (lms 0).y) ^ 2)
    (h1 : hyp ((lms 12).x - (lms 0).x) ((lms 12).y - (lms 0).y) = dTip)
    (h2 : hyp ((lms 9).x - (lms 0).x) ((lms 9).y - (lms 0).y) = dMcp) :
    (detectHandState hyp (Option.some lms) = HandState.closed ↔ dTip < 1.2 * dMcp) ∧
    (detectHandState hyp (Option.some lms) = HandState.open_ ↔ 1.2 * dMcp ≤ dTip) := by
  have hred : detectHandState hyp (Option.some lms)
      = if hyp ((lms 12).x - (lms 0).x) ((lms 12).y - (lms 0).y)
            < hyp ((lms 9).x - (lms 0).x) ((lms 9).y - (lms 0).y) * 1.2
        then HandState.closed else HandState.open_ := rfl
  rw [hred, h1, h2]
  by_cases hc : dTip < dMcp * 1.2
  · rw [if_pos hc]
    constructor
    · exact ⟨fun _ => by linarith, fun _ => rfl⟩
    · exact ⟨fun hcl => HandState.noConfusion hcl,
        fun hle => absurd hc (not_lt.mpr (by linarith))⟩
  · rw [if_neg hc]
    constructor
    · exact ⟨fun hop => HandState.noConfusion hop,
        fun hlt => absurd (by linarith : dTip < dMcp * 1.2) hc⟩
    · exact ⟨fun _ => by push_neg at hc; linarith, fun _ => rfl⟩

/-- Keypoint set with wrist at (0,0), middle knuckle at (0,10) and middle tip
at (0,5) (the fist example of the specification). -/
def lmsFist : KeypointSet := fun i =>
  if i = 12 then ⟨0, 5, 0⟩
  else if i = 9 then ⟨0, 10, 0⟩
  else ⟨0, 0, 0⟩

/-- Hypot oracle that is exact on the two purely vertical inputs of `lmsFist`. -/
def hypFist : ℚ → ℚ → ℚ := fun _ y => y

theorem lmsFist_zero : lmsFist 0 = ⟨0, 0, 0⟩ := rfl

theorem lmsFist_nine : lmsFist 9 = ⟨0, 10, 0⟩ := rfl

theorem lmsFist_twelve : lmsFist 12 = ⟨0, 5, 0⟩ := rfl

theorem handStateClosedIffWitness :
    detectHandState hypFist (Option.some lmsFist) = HandState.closed :=
  (handStateClosedIff hypFist lmsFist 5 10 (by norm_num)
    (by norm_num [lmsFist_zero, lmsFist_twelve]) (by norm_num)
    (by norm_num [lmsFist_zero, lmsFist_nine])
    (by norm_num [hypFist, lmsFist_zero, lmsFist_twelve])
    (by norm_num [hypFist, lmsFist_zero, lmsFist_nine])).1.mpr
    (by norm_num)

/-- Active drawing tool of the drawing view. -/
inductive Tool where
  | brush
  | eraser
deriving DecidableEq

/-- One stroke segment committed to the raster layer: the `moveTo`/`lineTo`
pair of part_001 lines 232-248 together with the tool, color and line width in
effect when it was stroked. -/
structure StrokeSegment where
  x1 : ℚ
  y1 : ℚ
  x2 : ℚ
  y2 : ℚ
  tool : Tool
  color : String
  width : ℚ
deriving DecidableEq

/-- Mutable state of the drawing view that the per-frame callback touches:
the `lastPoint` ref, the accumulated raster layer (as the list of committed
segments) and the `isPinching` React state. -/
structure DrawState where
  lastPoint : Option (ℚ × ℚ)
  segments : List StrokeSegment
  isPinching : Bool
deriving DecidableEq

/-- JavaScript falsy-default fallback `a?.c || b`: when the optional value is
absent the current coordinate is used, and when the stored coordinate is
exactly 0 (falsy in JavaScript) it is likewise replaced by the current one. -/
def jsOr (a : Option ℚ) (b : ℚ) : ℚ :=
  match a with
  | Option.none => b
  | Option.some v => if v = 0 then b else v

/-- Line width used for a committed segment: `brushSize * 3` for the eraser,
`brushSize` for the brush (part_001 lines 239-246). -/
def segWidth (tool : Tool) (brushSize : ℚ) : ℚ :=
  match tool with
  | Tool.eraser => brushSize * 3
  | Tool.brush => brushSize

/-- One invocation of the drawing view's `predictWebcam` frame callback
(part_001 lines 196-269), restricted to the state it reads and writes.
`videoReady` is `video.videoWidth > 0`; `det` is the `detectForVideo` call:
`Except.error` models a thrown detection error, which — there being no
`try`/`catch` in this view — propagates out of the callback, so the
`requestAnimationFrame` re-scheduling on line 268 is never reached
(`Except.error` result = loop not re-scheduled, state unchanged). -/
def drawingFrame (hyp : ℚ → ℚ → ℚ) (tool : Tool) (currentColor : String)
    (brushSize : ℚ) (w h : ℚ) (videoReady : Bool)
    (det : Except Unit (Option KeypointSet)) (st : DrawState) :
    Except Unit DrawState :=
  if videoReady then
    match det with
    | Except.error e => Except.error e
    | Except.ok Option.none =>
      Except.ok { st with lastPoint := Option.none, isPinching := false }
    | Except.ok (Option.some lms) =>
      let x := (1 - (lms 8).x) * w
      let y := (lms 8).y * h
      let pinch := isPinchNow hyp lms w h
      let st1 :=
        if pinch then
          { st with segments := st.segments ++
              [⟨jsOr (st.lastPoint.map Prod.fst) x, jsOr (st.lastPoint.map Prod.snd) y,
                x, y, tool, currentColor, segWidth tool brushSize⟩] }
        else st
      Except.ok { st1 with lastPoint := Option.some (x, y), isPinching := pinch }
  else
    Except.ok st

/-- Whether the frame callback reached the `requestAnimationFrame` call that
schedules the next frame. -/
def schedulesNext (r : Except Unit DrawState) : Bool :=
  match r with
  | Except.error _ => false
  | Except.ok _ => true

/-- Run the drawing-view frame callback over a list of per-frame detector
results (video ready throughout), stopping if a frame throws. -/
def runDrawFrames (hyp : ℚ → ℚ → ℚ) (tool : Tool) (currentColor : String)
    (brushSize : ℚ) (w h : ℚ) (dets : List (Except Unit (Option KeypointSet)))
    (st : DrawState) : Except Unit DrawState :=
  match dets with
  | [] => Except.ok st
  | d :: rest =>
    match drawingFrame hyp tool currentColor brushSize w h true d st with
    | Except.error e => Except.error e
    | Except.ok st' => runDrawFrames hyp tool currentColor brushSize w h rest st'

/-- Keypoint set whose index and thumb tips both map to pixel (100, 100)
(point B) on a 640×480 surface: a pinch at B. -/
def lmsPinchB : KeypointSet := fun i =>
  if i = 8 then ⟨27/32, 5/24, 0⟩
  else if i = 4 then ⟨27/32, 5/24, 0⟩
  else ⟨0, 0, 0⟩

/-- Keypoint set with the index tip still at pixel (100, 100) but the thumb tip
at pixel (100, 400): hand present, not pinching (distance 300). -/
def lmsApartB : KeypointSet := fun i =>
  if i = 8 then ⟨27/32, 5/24, 0⟩
  else if i = 4 then ⟨27/32, 5/6, 0⟩
  else ⟨0, 0, 0⟩

/-- Keypoint set whose index and thumb tips both map to pixel (300, 300)
(point C): a pinch at C. -/
def lmsPinchC : KeypointSet := fun i =>
  if i = 8 then ⟨17/32, 5/8, 0⟩
  else if i = 4 then ⟨17/32, 5/8, 0⟩
  else ⟨0, 0, 0⟩

/-- Hypot oracle exact on the two inputs arising in the pinch-gap run:
`hypot 0 0 = 0` and `hypot 0 (-300) = 300`. -/
def hypGap : ℚ → ℚ → ℚ := fun a b => if a = 0 ∧ b = 0 then 0 else 300

theorem lmsPinchB_eight : lmsPinchB 8 = ⟨27/32, 5/24, 0⟩ := rfl

theorem lmsPinchB_four : lmsPinchB 4 = ⟨27/32, 5/24, 0⟩ := rfl

theorem lmsApartB_eight : lmsApartB 8 = ⟨27/32, 5/24, 0⟩ := rfl

theorem lmsApartB_four : lmsApartB 4 = ⟨27/32, 5/6, 0⟩ := rfl

theorem lmsPinchC_eight : lmsPinchC 8 = ⟨17/32, 5/8, 0⟩ := rfl

theorem lmsPinchC_four : lmsPinchC 4 = ⟨17/32, 5/8, 0⟩ := rfl

theorem pinchB_true : isPinchNow hypGap lmsPinchB 640 480 = true := by
  norm_num [isPinchNow, pinchDistance, hypGap, lmsPinchB_eight, lmsPinchB_four]

theorem apartB_false : isPinchNow hypGap lmsApartB 640 480 = false := by
  norm_num [isPinchNow, pinchDistance, hypGap, lmsApartB_eight, lmsApartB_four]

theorem pinchC_true : isPinchNow hypGap lmsPinchC 640 480 = true := by
  norm_num [isPinchNow, pinchDistance, hypGap, lmsPinchC_eight, lmsPinchC_four]

theorem frameB1 :
    drawingFrame hypGap Tool.brush "#ef4444" 8 640 480 true
        (Except.ok (Option.some lmsPinchB)) ⟨Option.none, [], false⟩
      = Except.ok ⟨Option.some (100, 100),
          [⟨100, 100, 100, 100, Tool.brush, "#ef4444", 8⟩], true⟩ := by
  simp only [drawingFrame, pinchB_true, if_true]
  norm_num [lmsPinchB_eight, jsOr, segWidth]

theorem frameB2 :
    drawingFrame hypGap Tool.brush "#ef4444" 8 640 480 true
        (Except.ok (Option.some lmsApartB))
        ⟨Option.some (100, 100), [⟨100, 100, 100, 100, Tool.brush, "#ef4444", 8⟩], true⟩
      = Except.ok ⟨Option.some (100, 100),
          [⟨100, 100, 100, 100, Tool.brush, "#ef4444", 8⟩], false⟩ := by
  simp only [drawingFrame, apartB_false, if_true, Bool.false_eq_true, if_false]
  norm_num [lmsApartB_eight]

theorem frameB3 :
    drawingFrame hypGap Tool.brush "#ef4444" 8 640 480 true
        (Except.ok (Option.some lmsPinchC))
        ⟨Option.some (100, 100), [⟨100, 100, 100, 100, Tool.brush, "#ef4444", 8⟩], false⟩
      = Except.ok ⟨Option.some (300, 300),
          [⟨100, 100, 100, 100, Tool.brush, "#ef4444", 8⟩,
           ⟨100, 100, 300, 300, Tool.brush, "#ef4444", 8⟩], true⟩ := by
  simp only [drawingFrame, pinchC_true, if_true]
  norm_num [lmsPinchC_eight, jsOr, segWidth]

/-- C2 counterexample: pinch at B = (100,100), then a NotPinching frame with
the hand still detected (index tip still at B), then a pinch at C = (300,300).
After the NotPinching frame the stored previous anchor is NOT cleared (it is
still B), and the third frame commits a stroke segment connecting B to C to
the raster layer — refuting both parts of the claim. -/
theorem pinchGapSegmentCounterexample :
    runDrawFrames hypGap Tool.brush "#ef4444" 8 640 480
        [Except.ok (Option.some lmsPinchB), Except.ok (Option.some lmsApartB)]
        ⟨Option.none, [], false⟩
      = Except.ok ⟨Option.some (100, 100),
          [⟨100, 100, 100, 100, Tool.brush, "#ef4444", 8⟩], false⟩ ∧
    runDrawFrames hypGap Tool.brush "#ef4444" 8 640 480
        [Except.ok (Option.some lmsPinchB), Except.ok (Option.some lmsApartB),
         Except.ok (Option.some lmsPinchC)]
        ⟨Option.none, [], false⟩
      = Except.ok ⟨Option.some (300, 300),
          [⟨100, 100, 100, 100, Tool.brush, "#ef4444", 8⟩,
           ⟨100, 100, 300, 300, Tool.brush, "#ef4444", 8⟩], true⟩ := by
  constructor <;> simp only [runDrawFrames, frameB1, frameB2, frameB3]

/-- C2 amended: on a NotPinching frame the previous anchor is cleared only when
no hand is detected; when a hand is detected but not pinching, no segment is
committed on that frame but the anchor is UPDATED to the current index-tip
pixel position (so a later resumed pinch continues from the previous frame's
tip position, not from a fresh start). -/
theorem notPinchingKeepsTipAnchor (hyp : ℚ → ℚ → ℚ) (tool : Tool)
    (color : String) (size w h : ℚ) (lms : KeypointSet) (st : DrawState)
    (hnp : isPinchNow hyp lms w h = false) :
    drawingFrame hyp tool color size w h true (Except.ok (Option.some lms)) st
      = Except.ok { st with
          lastPoint := Option.some ((1 - (lms 8).x) * w, (lms 8).y * h),
          isPinching := false } ∧
    drawingFrame hyp tool color size w h true (Except.ok Option.none) st
      = Except.ok { st with lastPoint := Option.none, isPinching := false } := by
  constructor
  · simp only [drawingFrame, hnp, if_true, Bool.false_eq_true, if_false]
  · rfl

theorem notPinchingKeepsTipAnchorWitness :
    drawingFrame hypGap Tool.brush "#ef4444" 8 640 480 true
        (Except.ok (Option.some lmsApartB)) ⟨Option.some (100, 100), [], true⟩
      = Except.ok ⟨Option.some ((1 - (lmsApartB 8).x) * 640, (lmsApartB 8).y * 480),
          [], false⟩ ∧
    drawingFrame hypGap Tool.brush "#ef4444" 8 640 480 true
        (Except.ok Option.none) ⟨Option.some (100, 100), [], true⟩
      = Except.ok ⟨Option.none, [], false⟩ :=
  notPinchingKeepsTipAnchor hypGap Tool.brush "#ef4444" 8 640 480 lmsApartB
    ⟨Option.some (100, 100), [], true⟩ apartB_false

theorem jsOr_none (b : ℚ) : jsOr Option.none b = b := rfl

theorem jsOr_some (v b : ℚ) : jsOr (Option.some v) b = if v = 0 then b else v := rfl

/-- C10: the committed segment's start point uses the falsy-default fallback
`lastPoint.current?.x || x`. Consequently, on a pinching frame: with no
previous anchor a degenerate zero-length segment (a dot) is committed at the
current point rather than nothing; with a previous anchor whose x coordinate
is exactly 0 (left edge) the start's x is silently replaced by the current x;
and symmetrically for a y coordinate of exactly 0 (top edge). -/
theorem falsyAnchorFallback (hyp : ℚ → ℚ → ℚ) (tool : Tool) (color : String)
    (size w h ly lx : ℚ) (lms : KeypointSet) (stA stB stC : DrawState)
    (hp : isPinchNow hyp lms w h = true)
    (hA : stA.lastPoint = Option.none)
    (hB : stB.lastPoint = Option.some (0, ly)) (hly : ly ≠ 0)
    (hC : stC.lastPoint = Option.some (lx, 0)) (hlx : lx ≠ 0) :
    drawingFrame hyp tool color size w h true (Except.ok (Option.some lms)) stA
      = Except.ok { stA with
          lastPoint := Option.some ((1 - (lms 8).x) * w, (lms 8).y * h),
          isPinching := true,
          segments := stA.segments ++
            [⟨(1 - (lms 8).x) * w, (lms 8).y * h, (1 - (lms 8).x) * w, (lms 8).y * h,
              tool, color, segWidth tool size⟩] } ∧
    drawingFrame hyp tool color size w h true (Except.ok (Option.some lms)) stB
      = Except.ok { stB with
          lastPoint := Option.some ((1 - (lms 8).x) * w, (lms 8).y * h),
          isPinching := true,
          segments := stB.segments ++
            [⟨(1 - (lms 8).x) * w, ly, (1 - (lms 8).x) * w, (lms 8).y * h,
              tool, color, segWidth tool size⟩] } ∧
    drawingFrame hyp tool color size w h true (Except.ok (Option.some lms)) stC
      = Except.ok { stC with
          lastPoint := Option.some ((1 - (lms 8).x) * w, (lms 8).y * h),
          isPinching := true,
          segments := stC.segments ++
            [⟨lx, (lms 8).y * h, (1 - (lms 8).x) * w, (lms 8).y * h,
              tool, color, segWidth tool size⟩] } := by
  refine ⟨?_, ?_, ?_⟩ <;>
    simp only [drawingFrame, hp, hA, hB, hC, if_true, Option.map_some',
      Option.map_none', jsOr_none, jsOr_some] <;>
    norm_num [hly, hlx]

/-- Keypoint set whose index and thumb tips both map to pixel (200, 120) on a
640×480 surface: a pinching frame. -/
def lmsDot : KeypointSet := fun i =>
  if i = 8 then ⟨11/16, 1/4, 0⟩
  else if i = 4 then ⟨11/16, 1/4, 0⟩
  else ⟨0, 0, 0⟩

/-- Hypot oracle exact at the coinciding-tips input of `lmsDot`. -/
def hypZero : ℚ → ℚ → ℚ := fun _ _ => 0

theorem pinchDot_true : isPinchNow hypZero lmsDot 640 480 = true := by
  norm_num [isPinchNow, pinchDistance, hypZero]

theorem falsyAnchorFallbackWitness :
    drawingFrame hypZero Tool.brush "#3b82f6" 8 640 480 true
        (Except.ok (Option.some lmsDot)) ⟨Option.none, [], false⟩
      = Except.ok { (⟨Option.none, [], false⟩ : DrawState) with
          lastPoint := Option.some ((1 - (lmsDot 8).x) * 640, (lmsDot 8).y * 480),
          isPinching := true,
          segments := ([] : List StrokeSegment) ++
            [⟨(1 - (lmsDot 8).x) * 640, (lmsDot 8).y * 480, (1 - (lmsDot 8).x) * 640,
              (lmsDot 8).y * 480, Tool.brush, "#3b82f6", segWidth Tool.brush 8⟩] } ∧
    drawingFrame hypZero Tool.brush "#3b82f6" 8 640 480 true
        (Except.ok (Option.some lmsDot)) ⟨Option.some (0, 7), [], false⟩
      = Except.ok { (⟨Option.some (0, 7), [], false⟩ : DrawState) with
          lastPoint := Option.some ((1 - (lmsDot 8).x) * 640, (lmsDot 8).y * 480),
          isPinching := true,
          segments := ([] : List StrokeSegment) ++
            [⟨(1 - (lmsDot 8).x) * 640, 7, (1 - (lmsDot 8).x) * 640,
              (lmsDot 8).y * 480, Tool.brush, "#3b82f6", segWidth Tool.brush 8⟩] } ∧
    drawingFrame hypZero Tool.brush "#3b82f6" 8 640 480 true
        (Except.ok (Option.some lmsDot)) ⟨Option.some (9, 0), [], false⟩
      = Except.ok { (⟨Option.some (9, 0), [], false⟩ : DrawState) with
          lastPoint := Option.some ((1 - (lmsDot 8).x) * 640, (lmsDot 8).y * 480),
          isPinching := true,
          segments := ([] : List StrokeSegment) ++
            [⟨9, (lmsDot 8).y * 480, (1 - (lmsDot 8).x) * 640,
              (lmsDot 8).y * 480, Tool.brush, "#3b82f6", segWidth Tool.brush 8⟩] } :=
  falsyAnchorFallback hypZero Tool.brush "#3b82f6" 8 640 480 7 9 lmsDot
    ⟨Option.none, [], false⟩ ⟨Option.some (0, 7), [], false⟩
    ⟨Option.some (9, 0), [], false⟩ pinchDot_true rfl rfl (by norm_num) rfl (by norm_num)

/-- Logical resolution of the particle view's output surface (part_000 lines
7-8). -/
def CANVAS_WIDTH : ℚ := 640

/-- Height companion of `CANVAS_WIDTH`. -/
def CANVAS_HEIGHT : ℚ := 480

/-- Size of the fixed particle ensemble (part_000 line 6). -/
def PARTICLE_COUNT : ℕ := 300

/-- One particle of the ensemble (part_000 lines 10-17). -/
structure Particle where
  x : ℚ
  y : ℚ
  vx : ℚ
  vy : ℚ
  size : ℚ
  color : String
deriving DecidableEq

/-- Per-frame force application and damping of one particle (part_000 lines
183-227), branching on the classified hand state. `sqrt'` is the `Math.sqrt`
oracle; `r1`, `r2` are the two `Math.random()` draws of the frame. -/
def applyForces (sqrt' : ℚ → ℚ) (handState : HandState) (cx cy r1 r2 : ℚ)
    (p : Particle) : Particle :=
  match handState with
  | HandState.closed =>
    let dx := cx - p.x
    let dy := cy - p.y
    let dist := sqrt' (dx * dx + dy * dy)
    let p1 := if dist > 5 then
        { p with vx := p.vx + dx / dist * 1.5, vy := p.vy + dy / dist * 1.5 }
      else p
    { p1 with vx := p1.vx * 0.9, vy := p1.vy * 0.9 }
  | HandState.open_ =>
    let dx := p.x - cx
    let dy := p.y - cy
    let dist := sqrt' (dx * dx + dy * dy)
    let p1 := if dist < 200 then
        let force := (200 - dist) / 20
        { p with vx := p.vx + dx / dist * force, vy := p.vy + dy / dist * force }
      else
        { p with vx := p.vx + (r1 - 0.5) * 0.5, vy := p.vy + (r2 - 0.5) * 0.5 }
    { p1 with vx := p1.vx * 0.95, vy := p1.vy * 0.95 }
  | HandState.none =>
    let p1 := { p with vx := p.vx + (r1 - 0.5) * 0.2, vy := p.vy + (r2 - 0.5) * 0.2 }
    let dx := CANVAS_WIDTH / 2 - p1.x
    let dy := CANVAS_HEIGHT / 2 - p1.y
    let p2 := { p1 with vx := p1.vx + dx * 0.0005, vy := p1.vy + dy * 0.0005 }
    { p2 with vx := p2.vx * 0.98, vy := p2.vy * 0.98 }

/-- Position integration followed by the reflective boundary handling of
part_000 lines 229-237: clamp to the boundary and negate the corresponding
velocity component on exit. -/
def integrateAndBounce (p : Particle) : Particle :=
  let m := { p with x := p.x + p.vx, y := p.y + p.vy }
  let b1 := if m.x < 0 then { m with x := 0, vx := m.vx * (-1) } else m
  let b2 := if b1.x > CANVAS_WIDTH then { b1 with x := CANVAS_WIDTH, vx := b1.vx * (-1) }
    else b1
  let b3 := if b2.y < 0 then { b2 with y := 0, vy := b2.vy * (-1) } else b2
  if b3.y > CANVAS_HEIGHT then { b3 with y := CANVAS_HEIGHT, vy := b3.vy * (-1) } else b3

/-- Full per-particle simulation step of one frame: forces, integration,
reflective bounds. -/
def physicsStep (sqrt' : ℚ → ℚ) (handState : HandState) (cx cy r1 r2 : ℚ)
    (p : Particle) : Particle :=
  integrateAndBounce (applyForces sqrt' handState cx cy r1 r2 p)

/-- Detection part of the particle view's frame callback (part_000 lines
150-174): hand state and mirrored anchor point, with the hand-center default
`(CANVAS_WIDTH / 2, CANVAS_HEIGHT / 2)`. The `try`/`catch` around
`detectForVideo` means a thrown detection error (`Except.error`) leaves the
defaults in place exactly like an empty result. -/
def particleDetect (hyp : ℚ → ℚ → ℚ) (det : Except Unit (Option KeypointSet)) :
    HandState × ℚ × ℚ :=
  match det with
  | Except.error _ => (HandState.none, CANVAS_WIDTH / 2, CANVAS_HEIGHT / 2)
  | Except.ok Option.none => (HandState.none, CANVAS_WIDTH / 2, CANVAS_HEIGHT / 2)
  | Except.ok (Option.some lms) =>
    (detectHandState hyp (Option.some lms),
     CANVAS_WIDTH - ((lms 0).x + (lms 9).x) / 2 * CANVAS_WIDTH,
     ((lms 0).y + (lms 9).y) / 2 * CANVAS_HEIGHT)

/-- One invocation of the particle view's `predictWebcam` frame callback
(part_000 lines 140-260) past its ref guards: detection (with caught errors),
then one physics step per particle, then the unconditional
`requestAnimationFrame` re-scheduling of line 259 (the second component is
`true` because the `catch` confines any detection failure, so control always
reaches line 259). -/
def particleFrame (sqrt' : ℚ → ℚ) (hyp : ℚ → ℚ → ℚ) (videoReady : Bool)
    (det : Except Unit (Option KeypointSet)) (rnd : ℕ → ℚ × ℚ)
    (ps : List Particle) : List Particle × Bool :=
  let s := if videoReady then particleDetect hyp det
    else (HandState.none, CANVAS_WIDTH / 2, CANVAS_HEIGHT / 2)
  (ps.mapIdx (fun i p => physicsStep sqrt' s.1 s.2.1 s.2.2 (rnd i).1 (rnd i).2 p), true)

/-- C1 counterexample: in the drawing view a single throwing detector
invocation (video ready, any state) escapes the frame callback, so the next
frame is never scheduled — the loop halts, refuting the claim for the drawing
view. -/
theorem drawingLoopHaltsOnDetectorError :
    schedulesNext (drawingFrame hypZero Tool.brush "#ef4444" 8 640 480 true
      (Except.error ()) ⟨Option.none, [], false⟩) = false := rfl

/-- C1 amended: in the particle view a throwing detector invocation is caught,
treated exactly like "no hand detected" for that frame, and the next frame is
still scheduled; in the drawing view the detector call is not wrapped in a
handler, so a throwing invocation propagates out of the callback and the next
frame is not scheduled. -/
theorem detectorErrorHandling :
    (∀ (sqrt' : ℚ → ℚ) (hyp : ℚ → ℚ → ℚ) (videoReady : Bool) (rnd : ℕ → ℚ × ℚ)
        (ps : List Particle),
      particleFrame sqrt' hyp videoReady (Except.error ()) rnd ps
        = particleFrame sqrt' hyp videoReady (Except.ok Option.none) rnd ps ∧
      (particleFrame sqrt' hyp videoReady (Except.error ()) rnd ps).2 = true) ∧
    (∀ (hyp : ℚ → ℚ → ℚ) (tool : Tool) (color : String) (size w h : ℚ)
        (st : DrawState),
      drawingFrame hyp tool color size w h true (Except.error ()) st
        = Except.error ()) := by
  constructor
  · intro sqrt' hyp videoReady rnd ps
    cases videoReady <;> exact ⟨rfl, rfl⟩
  · intro hyp tool color size w h st
    rfl

/-- Scaling a unit vector by `f` yields a vector of squared norm `f ^ 2`. -/
theorem unitScale (dx dy d f : ℚ) (hdne : d ≠ 0)
    (hd : d ^ 2 = dx ^ 2 + dy ^ 2) :
    (dx / d * f) ^ 2 + (dy / d * f) ^ 2 = f ^ 2 := by
  have key : (dx / d) ^ 2 + (dy / d) ^ 2 = 1 := by
    field_simp
    linarith [hd]
  calc (dx / d * f) ^ 2 + (dy / d * f) ^ 2
      = ((dx / d) ^ 2 + (dy / d) ^ 2) * f ^ 2 := by ring
    _ = f ^ 2 := by rw [key]; ring

/-- C6: per-particle force application. Closed state: beyond 5px of the anchor
the velocity gains the unit direction toward the anchor scaled by 1.5 (a gain
of magnitude 1.5), and the velocity is damped by 0.9 with or without the
force. Open state: inside 200px the velocity gains a force of magnitude
`(200 - d) / 20` directed away from the anchor; at 200px or beyond, the random
jitter is added instead; damping is 0.95 in both cases. `d` is pinned to the
true particle–anchor distance and the sqrt oracle is assumed exact at the two
squared-distance inputs it receives. -/
theorem particleForcesSpec (sqrt' : ℚ → ℚ) (cx cy r1 r2 d : ℚ) (p : Particle)
    (hd0 : 0 ≤ d)
    (hd : d ^ 2 = (cx - p.x) ^ 2 + (cy - p.y) ^ 2)
    (hsc : sqrt' ((cx - p.x) * (cx - p.x) + (cy - p.y) * (cy - p.y)) = d)
    (hso : sqrt' ((p.x - cx) * (p.x - cx) + (p.y - cy) * (p.y - cy)) = d) :
    (5 < d →
      applyForces sqrt' HandState.closed cx cy r1 r2 p
        = { p with vx := (p.vx + (cx - p.x) / d * 1.5) * 0.9,
                   vy := (p.vy + (cy - p.y) / d * 1.5) * 0.9 } ∧
      ((cx - p.x) / d * 1.5) ^ 2 + ((cy - p.y) / d * 1.5) ^ 2 = 1.5 ^ 2) ∧
    (d ≤ 5 →
      applyForces sqrt' HandState.closed cx cy r1 r2 p
        = { p with vx := p.vx * 0.9, vy := p.vy * 0.9 }) ∧
    (0 < d → d < 200 →
      applyForces sqrt' HandState.open_ cx cy r1 r2 p
        = { p with vx := (p.vx + (p.x - cx) / d * ((200 - d) / 20)) * 0.95,
                   vy := (p.vy + (p.y - cy) / d * ((200 - d) / 20)) * 0.95 } ∧
      ((p.x - cx) / d * ((200 - d) / 20)) ^ 2 + ((p.y - cy) / d * ((200 - d) / 20)) ^ 2
        = ((200 - d) / 20) ^ 2) ∧
    (200 ≤ d →
      applyForces sqrt' HandState.open_ cx cy r1 r2 p
        = { p with vx := (p.vx + (r1 - 0.5) * 0.5) * 0.95,
                   vy := (p.vy + (r2 - 0.5) * 0.5) * 0.95 }) := by
  refine ⟨?_, ?_, ?_, ?_⟩
  · intro h5
    constructor
    · simp only [applyForces, hsc]
      rw [if_pos h5]
    · exact unitScale (cx - p.x) (cy - p.y) d 1.5 (by positivity) hd
  · intro h5
    simp only [applyForces, hsc]
    rw [if_neg (not_lt.mpr h5)]
  · intro h0 h200
    constructor
    · simp only [applyForces, hso]
      rw [if_pos h200]
    · exact unitScale (p.x - cx) (p.y - cy) d ((200 - d) / 20) (ne_of_gt h0)
        (by linear_combination hd)
  · intro h200
    simp only [applyForces, hso]
    rw [if_neg (not_lt.mpr h200)]

theorem particleForcesSpecWitness :
    applyForces (fun _ => 13) HandState.closed 100 0 0 0 ⟨95, 12, 1, 1, 2, "c"⟩
      = { (⟨95, 12, 1, 1, 2, "c"⟩ : Particle) with
          vx := ((⟨95, 12, 1, 1, 2, "c"⟩ : Particle).vx + (100 - 95) / 13 * 1.5) * 0.9,
          vy := ((⟨95, 12, 1, 1, 2, "c"⟩ : Particle).vy + (0 - 12) / 13 * 1.5) * 0.9 } ∧
    applyForces (fun _ => 13) HandState.open_ 100 0 0 0 ⟨95, 12, 1, 1, 2, "c"⟩
      = { (⟨95, 12, 1, 1, 2, "c"⟩ : Particle) with
          vx := ((⟨95, 12, 1, 1, 2, "c"⟩ : Particle).vx
            + (95 - 100) / 13 * ((200 - 13) / 20)) * 0.95,
          vy := ((⟨95, 12, 1, 1, 2, "c"⟩ : Particle).vy
            + (12 - 0) / 13 * ((200 - 13) / 20)) * 0.95 } :=
  ⟨((particleForcesSpec (fun _ => 13) 100 0 0 0 13 ⟨95, 12, 1, 1, 2, "c"⟩
      (by norm_num) (by norm_num) rfl rfl).1 (by norm_num)).1,
   ((particleForcesSpec (fun _ => 13) 100 0 0 0 13 ⟨95, 12, 1, 1, 2, "c"⟩
      (by norm_num) (by norm_num) rfl rfl).2.2.1 (by norm_num) (by norm_num)).1⟩

/-- One media track of the camera stream; `stopped` records whether
`track.stop()` has been called on it. -/
structure MediaTrack where
  stopped : Bool
deriving DecidableEq

/-- Stop a single media track (`track.stop()`). -/
def stopTrack (t : MediaTrack) : MediaTrack := { t with stopped := true }

/-- Lifecycle state of the particle view that `stopCamera` touches:
`streamTracks` is the underlying media-stream object's track list (it outlives
the element's reference to it), `hasStream` is whether `video.srcObject` is
set, `requestRef` the last animation-frame id (0 = never scheduled, JS falsy),
and `framePending` whether a frame callback is currently scheduled. -/
structure PViewState where
  streamTracks : List MediaTrack
  hasStream : Bool
  isCameraActive : Bool
  statusMessage : String
  requestRef : Nat
  framePending : Bool
deriving DecidableEq

/-- The particle view's `stopCamera` (part_000 lines 107-118): if a stream is
attached, stop every track and null `srcObject`; set the active flag false and
the status message back to the idle text; if `requestRef.current` is truthy,
cancel the scheduled animation frame. -/
def stopCamera (s : PViewState) : PViewState :=
  let s1 := if s.hasStream then
      { s with streamTracks := s.streamTracks.map stopTrack, hasStream := false }
    else s
  let s2 := { s1 with isCameraActive := false, statusMessage := "准备就绪" }
  if s2.requestRef ≠ 0 then { s2 with framePending := false } else s2

/-- Lifecycle state of the drawing view that its `useEffect` cleanup touches
(part_001 lines 173-180). -/
structure DViewState where
  streamTracks : List MediaTrack
  hasStream : Bool
  requestRef : Nat
  framePending : Bool
  mounted : Bool
deriving DecidableEq

/-- The drawing view's teardown cleanup (part_001 lines 173-180): clear the
`mounted` flag, stop every track of the attached stream if any — note that
`video.srcObject` is NOT nulled — and cancel the scheduled animation frame if
`requestRef.current` is truthy. -/
def drawingCleanup (d : DViewState) : DViewState :=
  let d1 := { d with mounted := false }
  let d2 := if d1.hasStream then
      { d1 with streamTracks := d1.streamTracks.map stopTrack }
    else d1
  if d2.requestRef ≠ 0 then { d2 with framePending := false } else d2

/-- C7 counterexample: the drawing view's teardown does not clear the stream
handle — starting from a state with an attached stream, after the cleanup
`srcObject` is still set, refuting the claim that all four release steps run
in both views. -/
theorem drawingCleanupKeepsStreamHandle :
    (drawingCleanup ⟨[⟨false⟩], true, 1, true, true⟩).hasStream = true := rfl

/-- C7 amended: the particle view's `stopCamera` performs all four release
steps — cancels the scheduled callback, stops every media track of the
attached stream, clears the stream handle, and resets the status to idle
(active flag false, idle status text). The drawing view's teardown performs
only the first two: it cancels the callback and stops every track, but leaves
the stream handle set (and has no status to reset). The `framePending`
hypotheses state the runtime invariant that a scheduled callback has a nonzero
(truthy) animation-frame id. -/
theorem releaseStepsPerView (s : PViewState) (d : DViewState)
    (hs : s.framePending = true → s.requestRef ≠ 0)
    (hd : d.framePending = true → d.requestRef ≠ 0) :
    ((stopCamera s).framePending = false ∧
     (s.hasStream = true → ∀ t ∈ (stopCamera s).streamTracks, t.stopped = true) ∧
     (stopCamera s).hasStream = false ∧
     (stopCamera s).isCameraActive = false ∧
     (stopCamera s).statusMessage = "准备就绪") ∧
    ((drawingCleanup d).framePending = false ∧
     (d.hasStream = true → ∀ t ∈ (drawingCleanup d).streamTracks, t.stopped = true) ∧
     (drawingCleanup d).hasStream = d.hasStream ∧
     (drawingCleanup d).mounted = false) := by
  constructor
  · refine ⟨?_, ?_, ?_, ?_, ?_⟩
    · by_cases hp : s.framePending
      · have hr := hs hp
        by_cases hst : s.hasStream <;> simp [stopCamera, hst, hr]
      · by_cases hr : s.requestRef ≠ 0 <;> by_cases hst : s.hasStream <;>
          simp [stopCamera, hst, hr] <;> simpa using hp
    · intro hst t ht
      by_cases hr : s.requestRef ≠ 0 <;>
        simp [stopCamera, hst, hr, stopTrack] at ht <;>
        obtain ⟨-, rfl⟩ := ht <;> rfl
    · by_cases hst : s.hasStream <;> by_cases hr : s.requestRef ≠ 0 <;>
        simp [stopCamera, hst, hr]
    · by_cases hst : s.hasStream <;> by_cases hr : s.requestRef ≠ 0 <;>
        simp [stopCamera, hst, hr]
    · by_cases hst : s.hasStream <;> by_cases hr : s.requestRef ≠ 0 <;>
        simp [stopCamera, hst, hr]
  · refine ⟨?_, ?_, ?_, ?_⟩
    · by_cases hp : d.framePending
      · have hr := hd hp
        by_cases hst : d.hasStream <;> simp [drawingCleanup, hst, hr]
      · by_cases hr : d.requestRef ≠ 0 <;> by_cases hst : d.hasStream <;>
          simp [drawingCleanup, hst, hr] <;> simpa using hp
    · intro hst t ht
      by_cases hr : d.requestRef ≠ 0 <;>
        simp [drawingCleanup, hst, hr, stopTrack] at ht <;>
        obtain ⟨-, rfl⟩ := ht <;> rfl
    · by_cases hst : d.hasStream <;> by_cases hr : d.requestRef ≠ 0 <;>
        simp [drawingCleanup, hst, hr]
    · by_cases hst : d.hasStream <;> by_cases hr : d.requestRef ≠ 0 <;>
        simp [drawingCleanup, hst, hr]

theorem releaseStepsPerViewWitness :
    (stopCamera ⟨[⟨false⟩], true, true, "请将手掌放入摄像头区域", 7, true⟩).hasStream
      = false ∧
    (stopCamera ⟨[⟨false⟩], true, true, "请将手掌放入摄像头区域", 7, true⟩).framePending
      = false ∧
    (drawingCleanup ⟨[⟨false⟩], true, 7, true, true⟩).framePending = false :=
  ⟨(releaseStepsPerView ⟨[⟨false⟩], true, true, "请将手掌放入摄像头区域", 7, true⟩
      ⟨[⟨false⟩], true, 7, true, true⟩ (fun _ => by norm_num)
      (fun _ => by norm_num)).1.2.2.1,
   (releaseStepsPerView ⟨[⟨false⟩], true, true, "请将手掌放入摄像头区域", 7, true⟩
      ⟨[⟨false⟩], true, 7, true, true⟩ (fun _ => by norm_num)
      (fun _ => by norm_num)).1.1,
   (releaseStepsPerView ⟨[⟨false⟩], true, true, "请将手掌放入摄像头区域", 7, true⟩
      ⟨[⟨false⟩], true, 7, true, true⟩ (fun _ => by norm_num)
      (fun _ => by norm_num)).2.1⟩

/-- C8: the particle view's stop/release operation is idempotent — it is a
total function (calling it never raises), and applying it twice yields exactly
the state of a single application (stream handle, loop scheduling, active
flag, status message and track list all included, by full state equality). -/
theorem stopCameraIdempotent (s : PViewState) : stopCamera (stopCamera s) = stopCamera s := by
  by_cases hst : s.hasStream <;> by_cases hr : s.requestRef ≠ 0 <;>
    simp [stopCamera, hst, hr]

/-- JavaScript number semantics restricted to what the particle physics step
exercises: exact rationals extended with the IEEE-754 special values NaN, +∞
and -∞ (significand rounding is ignored — rational arithmetic is exact — but
the special-value propagation and comparison rules are IEEE-faithful). -/
inductive JsNum where
  | fin (q : ℚ)
  | nan
  | inf
  | ninf
deriving DecidableEq

namespace JsNum

/-- IEEE negation. -/
def neg : JsNum → JsNum
  | fin q => fin (-q)
  | nan => nan
  | inf => ninf
  | ninf => inf

/-- IEEE addition: NaN propagates, opposite infinities give NaN. -/
def add : JsNum → JsNum → JsNum
  | nan, _ => nan
  | _, nan => nan
  | inf, ninf => nan
  | ninf, inf => nan
  | inf, _ => inf
  | _, inf => inf
  | ninf, _ => ninf
  | _, ninf => ninf
  | fin a, fin b => fin (a + b)

/-- IEEE subtraction, `a - b = a + (-b)`. -/
def sub (a b : JsNum) : JsNum := add a (neg b)

/-- IEEE multiplication: NaN propagates, `±∞ × 0` gives NaN. -/
def mul : JsNum → JsNum → JsNum
  | nan, _ => nan
  | _, nan => nan
  | inf, inf => inf
  | inf, ninf => ninf
  | ninf, inf => ninf
  | ninf, ninf => inf
  | inf, fin b => if b = 0 then nan else if 0 < b then inf else ninf
  | fin a, inf => if a = 0 then nan else if 0 < a then inf else ninf
  | ninf, fin b => if b = 0 then nan else if 0 < b then ninf else inf
  | fin a, ninf => if a = 0 then nan else if 0 < a then ninf else inf
  | fin a, fin b => fin (a * b)

/-- IEEE division: NaN propagates, `0 / 0` and `∞ / ∞` give NaN, division of a
nonzero finite number by zero gives a signed infinity. -/
def div : JsNum → JsNum → JsNum
  | nan, _ => nan
  | _, nan => nan
  | inf, inf => nan
  | inf, ninf => nan
  | ninf, inf => nan
  | ninf, ninf => nan
  | inf, fin b => if 0 ≤ b then inf else ninf
  | ninf, fin b => if 0 ≤ b then ninf else inf
  | fin _, inf => fin 0
  | fin _, ninf => fin 0
  | fin a, fin b =>
    if b = 0 then (if a = 0 then nan else if 0 < a then inf else ninf)
    else fin (a / b)

/-- IEEE strict less-than: every comparison against NaN is false. -/
def lt : JsNum → JsNum → Bool
  | nan, _ => false
  | _, nan => false
  | fin a, fin b => decide (a < b)
  | fin _, inf => true
  | fin _, ninf => false
  | inf, _ => false
  | ninf, ninf => false
  | ninf, _ => true

theorem add_nan (a : JsNum) : add a nan = nan := by cases a <;> rfl

theorem nan_mul (b : JsNum) : mul nan b = nan := by cases b <;> rfl

theorem mul_nan (a : JsNum) : mul a nan = nan := by cases a <;> rfl

theorem sub_fin (a b : ℚ) : sub (fin a) (fin b) = fin (a - b) := by
  simp [sub, neg, add, sub_eq_add_neg]

theorem add_fin (a b : ℚ) : add (fin a) (fin b) = fin (a + b) := rfl

theorem mul_fin (a b : ℚ) : mul (fin a) (fin b) = fin (a * b) := rfl

theorem div_fin (a b : ℚ) : div (fin a) (fin b)
    = if b = 0 then (if a = 0 then nan else if 0 < a then inf else ninf)
      else fin (a / b) := rfl

theorem lt_fin (a b : ℚ) : lt (fin a) (fin b) = decide (a < b) := rfl

theorem lt_nan_left (b : JsNum) : lt nan b = false := by cases b <;> rfl

theorem lt_nan_right (a : JsNum) : lt a nan = false := by cases a <;> rfl

end JsNum

/-- A particle under JavaScript number semantics. -/
structure ParticleJs where
  x : JsNum
  y : JsNum
  vx : JsNum
  vy : JsNum
  size : JsNum
  color : String
deriving DecidableEq

/-- Per-frame force application of part_000 lines 183-227 under JavaScript
number semantics. `sqrtJs` is the `Math.sqrt` oracle; the `Math.random()`
draws `r1`, `r2` are finite, so the jitter sub-expressions built only from
them are computed exactly in ℚ and injected as finite values. -/
def applyForcesJs (sqrtJs : JsNum → JsNum) (handState : HandState)
    (cx cy : JsNum) (r1 r2 : ℚ) (p : ParticleJs) : ParticleJs :=
  match handState with
  | HandState.closed =>
    let dx := JsNum.sub cx p.x
    let dy := JsNum.sub cy p.y
    let dist := sqrtJs (JsNum.add (JsNum.mul dx dx) (JsNum.mul dy dy))
    let p1 := if JsNum.lt (JsNum.fin 5) dist then
        { p with vx := JsNum.add p.vx (JsNum.mul (JsNum.div dx dist) (JsNum.fin 1.5)),
                 vy := JsNum.add p.vy (JsNum.mul (JsNum.div dy dist) (JsNum.fin 1.5)) }
      else p
    { p1 with vx := JsNum.mul p1.vx (JsNum.fin 0.9),
              vy := JsNum.mul p1.vy (JsNum.fin 0.9) }
  | HandState.open_ =>
    let dx := JsNum.sub p.x cx
    let dy := JsNum.sub p.y cy
    let dist := sqrtJs (JsNum.add (JsNum.mul dx dx) (JsNum.mul dy dy))
    let p1 := if JsNum.lt dist (JsNum.fin 200) then
        let force := JsNum.div (JsNum.sub (JsNum.fin 200) dist) (JsNum.fin 20)
        { p with vx := JsNum.add p.vx (JsNum.mul (JsNum.div dx dist) force),
                 vy := JsNum.add p.vy (JsNum.mul (JsNum.div dy dist) force) }
      else
        { p with vx := JsNum.add p.vx (JsNum.fin ((r1 - 0.5) * 0.5)),
                 vy := JsNum.add p.vy (JsNum.fin ((r2 - 0.5) * 0.5)) }
    { p1 with vx := JsNum.mul p1.vx (JsNum.fin 0.95),
              vy := JsNum.mul p1.vy (JsNum.fin 0.95) }
  | HandState.none =>
    let p1 := { p with vx := JsNum.add p.vx (JsNum.fin ((r1 - 0.5) * 0.2)),
                       vy := JsNum.add p.vy (JsNum.fin ((r2 - 0.5) * 0.2)) }
    let dx := JsNum.sub (JsNum.fin (CANVAS_WIDTH / 2)) p1.x
    let dy := JsNum.sub (JsNum.fin (CANVAS_HEIGHT / 2)) p1.y
    let p2 := { p1 with vx := JsNum.add p1.vx (JsNum.mul dx (JsNum.fin 0.0005)),
                        vy := JsNum.add p1.vy (JsNum.mul dy (JsNum.fin 0.0005)) }
    { p2 with vx := JsNum.mul p2.vx (JsNum.fin 0.98),
              vy := JsNum.mul p2.vy (JsNum.fin 0.98) }

/-- Position integration and reflective bounds of part_000 lines 229-237 under
JavaScript number semantics: `p.x < 0` and `p.x > CANVAS_WIDTH` are IEEE
comparisons, both false when the position is NaN. -/
def integrateAndBounceJs (p : ParticleJs) : ParticleJs :=
  let m := { p with x := JsNum.add p.x p.vx, y := JsNum.add p.y p.vy }
  let b1 := if JsNum.lt m.x (JsNum.fin 0) then
      { m with x := JsNum.fin 0, vx := JsNum.mul m.vx (JsNum.fin (-1)) }
    else m
  let b2 := if JsNum.lt (JsNum.fin CANVAS_WIDTH) b1.x then
      { b1 with x := JsNum.fin CANVAS_WIDTH, vx := JsNum.mul b1.vx (JsNum.fin (-1)) }
    else b1
  let b3 := if JsNum.lt b2.y (JsNum.fin 0) then
      { b2 with y := JsNum.fin 0, vy := JsNum.mul b2.vy (JsNum.fin (-1)) }
    else b2
  if JsNum.lt (JsNum.fin CANVAS_HEIGHT) b3.y then
    { b3 with y := JsNum.fin CANVAS_HEIGHT, vy := JsNum.mul b3.vy (JsNum.fin (-1)) }
  else b3

/-- Full per-particle simulation step under JavaScript number semantics. -/
def physicsStepJs (sqrtJs : JsNum → JsNum) (handState : HandState)
    (cx cy : JsNum) (r1 r2 : ℚ) (p : ParticleJs) : ParticleJs :=
  integrateAndBounceJs (applyForcesJs sqrtJs handState cx cy r1 r2 p)

/-- Whether a JavaScript number is a finite value inside `[lo, hi]`; NaN and
the infinities are not within any bounds. -/
def isFinBetween (lo hi : ℚ) : JsNum → Bool
  | JsNum.fin q => decide (lo ≤ q ∧ q ≤ hi)
  | _ => false

/-- C9: in the Open (repel) state the force computation divides `dx / dist`
without guarding `dist = 0`. For a particle whose position exactly equals the
anchor, `dist = sqrt 0 = 0` and `0 < 200`, so the force term is `0 / 0 = NaN`:
both velocity components become NaN, the integrated position becomes NaN, and
since every IEEE comparison against NaN is false, the reflective-bounds
clamping leaves it NaN — the position is no longer within the surface bounds. -/
theorem openRepelZeroDistanceNaN (sqrtJs : JsNum → JsNum) (ax ay : ℚ)
    (vx vy sz : JsNum) (c : String) (r1 r2 : ℚ)
    (hs : sqrtJs (JsNum.fin 0) = JsNum.fin 0) :
    physicsStepJs sqrtJs HandState.open_ (JsNum.fin ax) (JsNum.fin ay) r1 r2
        ⟨JsNum.fin ax, JsNum.fin ay, vx, vy, sz, c⟩
      = ⟨JsNum.nan, JsNum.nan, JsNum.nan, JsNum.nan, sz, c⟩ ∧
    isFinBetween 0 CANVAS_WIDTH
      (physicsStepJs sqrtJs HandState.open_ (JsNum.fin ax) (JsNum.fin ay) r1 r2
        ⟨JsNum.fin ax, JsNum.fin ay, vx, vy, sz, c⟩).x = false ∧
    isFinBetween 0 CANVAS_HEIGHT
      (physicsStepJs sqrtJs HandState.open_ (JsNum.fin ax) (JsNum.fin ay) r1 r2
        ⟨JsNum.fin ax, JsNum.fin ay, vx, vy, sz, c⟩).y = false := by
  have happ : applyForcesJs sqrtJs HandState.open_ (JsNum.fin ax) (JsNum.fin ay) r1 r2
      ⟨JsNum.fin ax, JsNum.fin ay, vx, vy, sz, c⟩
      = ⟨JsNum.fin ax, JsNum.fin ay, JsNum.nan, JsNum.nan, sz, c⟩ := by
    norm_num [applyForcesJs, JsNum.sub_fin, hs, JsNum.add_fin, JsNum.mul_fin,
      JsNum.div_fin, JsNum.lt_fin, JsNum.add_nan, JsNum.nan_mul, JsNum.mul_nan]
  have hstep : physicsStepJs sqrtJs HandState.open_ (JsNum.fin ax) (JsNum.fin ay) r1 r2
      ⟨JsNum.fin ax, JsNum.fin ay, vx, vy, sz, c⟩
      = integrateAndBounceJs ⟨JsNum.fin ax, JsNum.fin ay, JsNum.nan, JsNum.nan, sz, c⟩ := by
    rw [physicsStepJs, happ]
  have hint : integrateAndBounceJs ⟨JsNum.fin ax, JsNum.fin ay, JsNum.nan, JsNum.nan, sz, c⟩
      = ⟨JsNum.nan, JsNum.nan, JsNum.nan, JsNum.nan, sz, c⟩ := by
    simp [integrateAndBounceJs, JsNum.add_nan, JsNum.lt_nan_left, JsNum.lt_nan_right]
  rw [hstep, hint]
  exact ⟨rfl, rfl, rfl⟩

theorem openRepelZeroDistanceNaNWitness :
    physicsStepJs (fun _ => JsNum.fin 0) HandState.open_ (JsNum.fin 320) (JsNum.fin 240)
        0 0 ⟨JsNum.fin 320, JsNum.fin 240, JsNum.fin 1, JsNum.fin 1, JsNum.fin 2, "blue"⟩
      = ⟨JsNum.nan, JsNum.nan, JsNum.nan, JsNum.nan, JsNum.fin 2, "blue"⟩ ∧
    isFinBetween 0 CANVAS_WIDTH
      (physicsStepJs (fun _ => JsNum.fin 0) HandState.open_ (JsNum.fin 320) (JsNum.fin 240)
        0 0 ⟨JsNum.fin 320, JsNum.fin 240, JsNum.fin 1, JsNum.fin 1, JsNum.fin 2, "blue"⟩).x
      = false ∧
    isFinBetween 0 CANVAS_HEIGHT
      (physicsStepJs (fun _ => JsNum.fin 0) HandState.open_ (JsNum.fin 320) (JsNum.fin 240)
        0 0 ⟨JsNum.fin 320, JsNum.fin 240, JsNum.fin 1, JsNum.fin 1, JsNum.fin 2, "blue"⟩).y
      = false :=
  openRepelZeroDistanceNaN (fun _ => JsNum.fin 0) 320 240 (JsNum.fin 1) (JsNum.fin 1)
    (JsNum.fin 2) "blue" 0 0 rfl

/-- C5: evaluation of the simulation step at the failing input of the
boundary-reflection claim: a particle in the Open state sitting exactly on the
anchor point (320, 240). The unguarded `0 / 0` makes velocity and position
NaN, the clamping comparisons are all false on NaN, and the resulting position
is not within `[0, CANVAS_WIDTH] × [0, CANVAS_HEIGHT]` — the invariant claimed
by the specification is violated by the code. -/
theorem particleNaNEscapesBounds :
    isFinBetween 0 CANVAS_WIDTH
      (physicsStepJs (fun _ => JsNum.fin 0) HandState.open_ (JsNum.fin 320) (JsNum.fin 240)
        (1/2) (1/2)
        ⟨JsNum.fin 320, JsNum.fin 240, JsNum.fin 0, JsNum.fin 0, JsNum.fin 3, "p"⟩).x
      = false ∧
    isFinBetween 0 CANVAS_HEIGHT
      (physicsStepJs (fun _ => JsNum.fin 0) HandState.open_ (JsNum.fin 320) (JsNum.fin 240)
        (1/2) (1/2)
        ⟨JsNum.fin 320, JsNum.fin 240, JsNum.fin 0, JsNum.fin 0, JsNum.fin 3, "p"⟩).y
      = false := by
  have happ : applyForcesJs (fun _ => JsNum.fin 0) HandState.open_ (JsNum.fin 320)
      (JsNum.fin 240) (1/2) (1/2)
      ⟨JsNum.fin 320, JsNum.fin 240, JsNum.fin 0, JsNum.fin 0, JsNum.fin 3, "p"⟩
      = ⟨JsNum.fin 320, JsNum.fin 240, JsNum.nan, JsNum.nan, JsNum.fin 3, "p"⟩ := by
    norm_num [applyForcesJs, JsNum.sub_fin, JsNum.add_fin, JsNum.mul_fin,
      JsNum.div_fin, JsNum.lt_fin, JsNum.add_nan, JsNum.nan_mul, JsNum.mul_nan]
  have hint : integrateAndBounceJs
      ⟨JsNum.fin 320, JsNum.fin 240, JsNum.nan, JsNum.nan, JsNum.fin 3, "p"⟩
      = ⟨JsNum.nan, JsNum.nan, JsNum.nan, JsNum.nan, JsNum.fin 3, "p"⟩ := by
    simp [integrateAndBounceJs, JsNum.add_nan, JsNum.lt_nan_left, JsNum.lt_nan_right]
  rw [physicsStepJs, happ, hint]
  exact ⟨rfl, rfl⟩
